import Mathlib

/-!
Shallow embedding of the CHIP-8 virtual machine core from `src/chip8.rs`.

Machine integers are modelled as `Nat` (u8 values are kept below 256 and u16
values below 65536 by the operations themselves).  Rust's bounds-checked array
indexing and debug-mode checked arithmetic are modelled by the `Except Fault`
monad: an out-of-bounds index or an overflowing/underflowing checked operation
is a runtime fault (a Rust panic) carrying the kind of panic, and `todo!()`
is the `notYetImplemented` fault.  Arrays (`memory`, `v`, `gfx`, `stack`) are
total functions `Nat → Nat` read and written only through the bounds-checked
helpers `readSlot`/`writeSlot`, mirroring Rust's `a[i]`.
-/

/-- The kind of runtime fault (Rust panic) an operation can raise. -/
inductive Fault where
  | indexOutOfBounds : Fault
  | arithOverflow : Fault
  | notYetImplemented : Fault
deriving DecidableEq, Repr

instance instDecEqExceptFault {α : Type} [DecidableEq α] :
    DecidableEq (Except Fault α) := fun a b =>
  match a, b with
  | .ok x, .ok y =>
      if h : x = y then .isTrue (by rw [h]) else
        .isFalse (fun hc => h (Except.ok.inj hc))
  | .ok _, .error _ => .isFalse (fun hc => Except.noConfusion hc)
  | .error _, .ok _ => .isFalse (fun hc => Except.noConfusion hc)
  | .error e, .error f =>
      if h : e = f then .isTrue (by rw [h]) else
        .isFalse (fun hc => h (Except.error.inj hc))

/-- Bounds-checked array read, `a[i]` on an array of length `size`. -/
def readSlot (a : Nat → Nat) (size i : Nat) : Except Fault Nat :=
  if i < size then .ok (a i) else .error .indexOutOfBounds

/-- Bounds-checked array write, `a[i] = val` on an array of length `size`. -/
def writeSlot (a : Nat → Nat) (size i val : Nat) :
    Except Fault (Nat → Nat) :=
  if i < size then .ok (fun j => if j = i then val else a j)
  else .error .indexOutOfBounds

/-- Checked `w`-bit unsigned addition (Rust debug-mode `+`: overflow panics). -/
def checkedAdd (w a b : Nat) : Except Fault Nat :=
  if a + b < 2 ^ w then .ok (a + b) else .error .arithOverflow

/-- Checked unsigned subtraction (Rust debug-mode `-`: underflow panics). -/
def checkedSub (a b : Nat) : Except Fault Nat :=
  if b ≤ a then .ok (a - b) else .error .arithOverflow

/-- `CHIP8_FONT_SET`: the 80-byte built-in font table. -/
def CHIP8_FONT_SET : List Nat :=
  [0xF0, 0x90, 0x90, 0x90, 0xF0,
   0x20, 0x60, 0x20, 0x20, 0x70,
   0xF0, 0x10, 0xF0, 0x80, 0xF0,
   0xF0, 0x10, 0xF0, 0x10, 0xF0,
   0x90, 0x90, 0xF0, 0x10, 0x10,
   0xF0, 0x80, 0xF0, 0x10, 0xF0,
   0xF0, 0x80, 0xF0, 0x90, 0xF0,
   0xF0, 0x10, 0x20, 0x40, 0x40,
   0xF0, 0x90, 0xF0, 0x90, 0xF0,
   0xF0, 0x90, 0xF0, 0x10, 0xF0,
   0xF0, 0x90, 0xF0, 0x90, 0x90,
   0xE0, 0x90, 0xE0, 0x90, 0xE0,
   0xF0, 0x80, 0x80, 0x80, 0xF0,
   0xE0, 0x90, 0x90, 0x90, 0xE0,
   0xF0, 0x80, 0xF0, 0x80, 0xF0,
   0xF0, 0x80, 0xF0, 0x80, 0x80]

/-- The `Chip8` state (struct `Chip8` in the source). -/
structure Chip8 where
  current_opcode : Nat
  memory : Nat → Nat
  v : Nat → Nat
  index_register : Nat
  program_counter : Nat
  gfx : Nat → Nat
  delay_timer : Nat
  sound_timer : Nat
  stack_pointer : Nat
  stack : Nat → Nat

def LAST_12_BITS_MASK : Nat := 0x0FFF
def LAST_8_BITS_MASK : Nat := 0x00FF
def FIRST_4_BITS_MASK : Nat := 0xF000
def SECOND_4_BITS_MASK : Nat := 0x0F00
def THIRD_4_BITS_MASK : Nat := 0x00F0
def FOURTH_4_BITS_MASK : Nat := 0x000F
def CHIP8_PROGRAM_OFFSET : Nat := 0x200
def ETI660_PROGRAM_OFFSET : Nat := 0x600

inductive ProgramKind where
  | CHIP8 : ProgramKind
  | ETI660 : ProgramKind

def F : Nat := 0xF

/-- A `for (i, &byte) in buf.iter().enumerate()` loop writing
`mem[base + i] = byte` (with `base + i` tracked in one counter). -/
def storeBytes : (Nat → Nat) → Nat → List Nat → Except Fault (Nat → Nat)
  | mem, _, [] => .ok mem
  | mem, i, b :: rest => do
      let m ← writeSlot mem 4096 i b
      storeBytes m (i + 1) rest

/-- `Chip8::initialize` (the source name is a Lean keyword, hence the suffix
here): sets `program_counter` to 0x200, zeroes `current_opcode`,
`index_register` and `stack_pointer`, and copies the font into
`memory[0..80]`. -/
def initializeChip8 (s : Chip8) : Except Fault Chip8 := do
  let s := { s with
               program_counter := 0x200, current_opcode := 0,
               index_register := 0, stack_pointer := 0 }
  let m ← storeBytes s.memory 0 CHIP8_FONT_SET
  pure { s with memory := m }

/-- `Chip8::load_chip8_program`. -/
def load_chip8_program (s : Chip8) (program_buffer : List Nat) :
    Except Fault Chip8 := do
  let m ← storeBytes s.memory CHIP8_PROGRAM_OFFSET program_buffer
  pure { s with memory := m }

/-- `Chip8::load_eti660_program`. -/
def load_eti660_program (s : Chip8) (program_buffer : List Nat) :
    Except Fault Chip8 := do
  let m ← storeBytes s.memory ETI660_PROGRAM_OFFSET program_buffer
  pure { s with memory := m }

/-- `Chip8::load_program`. -/
def load_program (s : Chip8) (program : List Nat) (kind : ProgramKind) :
    Except Fault Chip8 :=
  match kind with
  | .CHIP8 => load_chip8_program s program
  | .ETI660 => load_eti660_program s program

/-- `Chip8::fetch_opcode`: `u16::from_be_bytes([memory[pc], memory[pc+1]])`. -/
def fetch_opcode (s : Chip8) : Except Fault Chip8 := do
  let hi ← readSlot s.memory 4096 s.program_counter
  let lo ← readSlot s.memory 4096 (s.program_counter + 1)
  pure { s with current_opcode := hi * 256 + lo }

/-- `Chip8::clear_screen` is `todo!()` in the source: it panics. -/
def clear_screen (_s : Chip8) : Except Fault Chip8 :=
  .error .notYetImplemented

/-- `Chip8::decode_opcode`: the opcode dispatch.  The Rust `match` on the
masked fields is rendered as the equivalent chain of equality tests, in the
same arm order; `println!`-only arms leave the state unchanged. -/
def decode_opcode (s : Chip8) : Except Fault Chip8 :=
  let first_1_n := s.current_opcode &&& FIRST_4_BITS_MASK
  let x := (s.current_opcode &&& SECOND_4_BITS_MASK) >>> 8
  let y := (s.current_opcode &&& THIRD_4_BITS_MASK) >>> 4
  let fourth_1_n := s.current_opcode &&& FOURTH_4_BITS_MASK
  let last_2_n := s.current_opcode &&& LAST_8_BITS_MASK
  let last_3_n := s.current_opcode &&& LAST_12_BITS_MASK
  if first_1_n = 0x0000 then
    if s.current_opcode = 0x00E0 then
      clear_screen s
    else if s.current_opcode = 0x00EE then do
      let pc ← readSlot s.stack 16 s.stack_pointer
      let sp ← checkedSub s.stack_pointer 1
      pure { s with program_counter := pc, stack_pointer := sp }
    else
      pure s
  else if first_1_n = 0x1000 then
    pure { s with program_counter := last_3_n }
  else if first_1_n = 0x2000 then do
    let sp ← checkedAdd 16 s.stack_pointer 1
    let st ← writeSlot s.stack 16 sp s.program_counter
    pure { s with
             stack_pointer := sp, stack := st,
             program_counter := last_3_n }
  else if first_1_n = 0x3000 then do
    let vx ← readSlot s.v 16 x
    if vx = last_2_n then do
      let pc ← checkedAdd 16 s.program_counter 2
      pure { s with program_counter := pc }
    else
      pure s
  else if first_1_n = 0x4000 then do
    let vx ← readSlot s.v 16 x
    if vx ≠ last_2_n then do
      let pc ← checkedAdd 16 s.program_counter 2
      pure { s with program_counter := pc }
    else
      pure s
  else if first_1_n = 0x5000 then do
    let vx ← readSlot s.v 16 x
    let vy ← readSlot s.v 16 y
    if vx = vy then do
      let pc ← checkedAdd 16 s.program_counter 2
      pure { s with program_counter := pc }
    else
      pure s
  else if first_1_n = 0x6000 then do
    let vs ← writeSlot s.v 16 x last_2_n
    pure { s with v := vs }
  else if first_1_n = 0x7000 then do
    let vx ← readSlot s.v 16 x
    let sum ← checkedAdd 8 vx last_2_n
    let vs ← writeSlot s.v 16 x sum
    pure { s with v := vs }
  else if first_1_n = 0x8000 then
    if fourth_1_n = 0x0 then do
      let vy ← readSlot s.v 16 y
      let vs ← writeSlot s.v 16 x vy
      pure { s with v := vs }
    else if fourth_1_n = 0x1 then do
      let vx ← readSlot s.v 16 x
      let vy ← readSlot s.v 16 y
      let vs ← writeSlot s.v 16 x (vx ||| vy)
      pure { s with v := vs }
    else if fourth_1_n = 0x2 then do
      let vx ← readSlot s.v 16 x
      let vy ← readSlot s.v 16 y
      let vs ← writeSlot s.v 16 x (vx &&& vy)
      pure { s with v := vs }
    else if fourth_1_n = 0x3 then do
      let vx ← readSlot s.v 16 x
      let vy ← readSlot s.v 16 y
      let vs ← writeSlot s.v 16 x (vx ^^^ vy)
      pure { s with v := vs }
    else if fourth_1_n = 0x4 then do
      let vx ← readSlot s.v 16 x
      let vy ← readSlot s.v 16 y
      let sum := (vx + vy) % 256
      let overflowing := 256 ≤ vx + vy
      let v1 ← writeSlot s.v 16 x sum
      let v2 ← writeSlot v1 16 F (if overflowing then 1 else 0)
      pure { s with v := v2 }
    else if fourth_1_n = 0x5 then do
      let vx ← readSlot s.v 16 x
      let vy ← readSlot s.v 16 y
      let x_bigger := vy < vx
      let vs ← writeSlot s.v 16 F (if x_bigger then 1 else 0)
      pure { s with v := vs }
    else if fourth_1_n = 0x6 then do
      let vx ← readSlot s.v 16 x
      let x_lsb := vx &&& 1
      let v1 ← writeSlot s.v 16 F (if x_lsb = 1 then 1 else 0)
      let vx2 ← readSlot v1 16 x
      let v2 ← writeSlot v1 16 x (vx2 >>> 1)
      pure { s with v := v2 }
    else if fourth_1_n = 0x7 then do
      let vx ← readSlot s.v 16 x
      let vy ← readSlot s.v 16 y
      let y_bigger := vx < vy
      let vs ← writeSlot s.v 16 F (if y_bigger then 1 else 0)
      pure { s with v := vs }
    else if fourth_1_n = 0xE then do
      let vx ← readSlot s.v 16 x
      let x_msb := (vx >>> 7) &&& 1
      let v1 ← writeSlot s.v 16 F (if x_msb = 1 then 1 else 0)
      let vx2 ← readSlot v1 16 x
      let v2 ← writeSlot v1 16 x ((vx2 <<< 1) % 256)
      pure { s with v := v2 }
    else
      .error .notYetImplemented
  else if first_1_n = 0x9000 then do
    let vx ← readSlot s.v 16 x
    let vy ← readSlot s.v 16 y
    if vx ≠ vy then do
      let pc ← checkedAdd 16 s.program_counter 2
      pure { s with program_counter := pc }
    else
      pure s
  else if first_1_n = 0xA000 then
    pure { s with index_register := last_3_n }
  else if first_1_n = 0xB000 then do
    let v0 ← readSlot s.v 16 0
    let pc ← checkedAdd 16 last_3_n v0
    pure { s with program_counter := pc }
  else
    pure s

/-- `Chip8::update_timers`. -/
def update_timers (s : Chip8) : Chip8 :=
  let s1 := if s.delay_timer > 0
            then { s with delay_timer := s.delay_timer - 1 } else s
  if s1.sound_timer > 0
  then { s1 with sound_timer := s1.sound_timer - 1 } else s1

/-- A concrete all-zero state, used as the base of concrete test states. -/
def zeroChip8 : Chip8 where
  current_opcode := 0
  memory := fun _ => 0
  v := fun _ => 0
  index_register := 0
  program_counter := 0
  gfx := fun _ => 0
  delay_timer := 0
  sound_timer := 0
  stack_pointer := 0
  stack := fun _ => 0

def c7StateA : Chip8 :=
  { zeroChip8 with
      current_opcode := 0x8014,
      v := fun i => if i = 0 then 0xFF else if i = 1 then 0x01 else 0 }

def c7StateB : Chip8 :=
  { zeroChip8 with
      current_opcode := 0x8014,
      v := fun i => if i = 0 then 0x01 else if i = 1 then 0x01 else 0 }

def c1StateA : Chip8 :=
  { zeroChip8 with
      current_opcode := 0x8015,
      v := fun i => if i = 0 then 0x05 else if i = 1 then 0x03 else 0 }

def c1StateB : Chip8 :=
  { zeroChip8 with
      current_opcode := 0x8015,
      v := fun i => if i = 0 then 0x03 else if i = 1 then 0x05 else 0 }

def c1StateC : Chip8 :=
  { zeroChip8 with
      current_opcode := 0x8017,
      v := fun i => if i = 0 then 0x03 else if i = 1 then 0x05 else 0 }

def c2State : Chip8 :=
  { zeroChip8 with
      program_counter := 0x200,
      memory := fun i => if i = 0x200 then 0x60
                         else if i = 0x201 then 0x0A else 0 }

def c2StateB : Chip8 :=
  { zeroChip8 with
      program_counter := 0x200,
      memory := fun i => if i = 0x200 then 0x30
                         else if i = 0x201 then 0x00 else 0 }

def c3State : Chip8 :=
  { zeroChip8 with
      v := fun i => if i = 0 then 1 else 0,
      delay_timer := 7 }

def c5CallState : Chip8 :=
  { zeroChip8 with current_opcode := 0x2ABC, stack_pointer := 15 }

def c5WitCall15 : Chip8 :=
  { zeroChip8 with current_opcode := 0x2123, stack_pointer := 15 }

def c5WitRet0 : Chip8 :=
  { zeroChip8 with current_opcode := 0x00EE }

def c5WitCall : Chip8 :=
  { zeroChip8 with
      current_opcode := 0x2123,
      program_counter := 0x456,
      stack_pointer := 3 }

def c5WitRet : Chip8 :=
  { zeroChip8 with
      current_opcode := 0x00EE,
      stack_pointer := 4,
      stack := fun j => if j = 4 then 0x654 else 0 }

def c6FaultState : Chip8 :=
  { zeroChip8 with
      current_opcode := 0x2ABC,
      program_counter := 0x123,
      stack_pointer := 15 }

def c6WitState : Chip8 :=
  { zeroChip8 with
      current_opcode := 0x2ABC,
      program_counter := 0x345 }

theorem exc_bind_ok {α β : Type} (a : α) (f : α → Except Fault β) :
    (Except.ok a : Except Fault α) >>= f = f a := rfl

theorem exc_bind_error {α β : Type} (e : Fault) (f : α → Except Fault β) :
    (Except.error e : Except Fault α) >>= f = .error e := rfl

theorem exc_pure {α : Type} (a : α) : (pure a : Except Fault α) = .ok a := rfl

theorem nibble_x_lt (op : Nat) : (op &&& 0x0F00) >>> 8 < 16 := by
  have h1 : op &&& 0x0F00 ≤ 0x0F00 := Nat.and_le_right
  have h2 := Nat.div_le_div_right (c := 256) h1
  simp only [Nat.shiftRight_eq_div_pow]
  norm_num
  omega

theorem nibble_y_lt (op : Nat) : (op &&& 0x00F0) >>> 4 < 16 := by
  have h1 : op &&& 0x00F0 ≤ 0x00F0 := Nat.and_le_right
  have h2 := Nat.div_le_div_right (c := 16) h1
  simp only [Nat.shiftRight_eq_div_pow]
  norm_num
  omega

theorem storeBytes_ok (l : List Nat) :
    ∀ (mem : Nat → Nat) (base : Nat), base + l.length ≤ 4096 →
    storeBytes mem base l =
      .ok (fun j => if base ≤ j ∧ j < base + l.length
                    then l.getD (j - base) 0 else mem j) := by
  induction l with
  | nil =>
    intro mem base _
    refine congrArg Except.ok (funext fun j => ?_)
    rw [if_neg (by simp only [List.length_nil]; omega)]
  | cons b rest ih =>
    intro mem base h
    simp only [List.length_cons] at h
    have hb : base < 4096 := by omega
    simp only [storeBytes, writeSlot, if_pos hb, exc_bind_ok]
    rw [ih _ (base + 1) (by omega)]
    refine congrArg Except.ok (funext fun j => ?_)
    by_cases h1 : base + 1 ≤ j ∧ j < base + 1 + rest.length
    · rw [if_pos h1, if_pos (by simp only [List.length_cons]; omega)]
      have hj : j - base = (j - (base + 1)) + 1 := by omega
      rw [hj, List.getD_cons_succ]
    · rw [if_neg h1]
      by_cases h2 : j = base
      · subst h2
        rw [if_pos rfl, if_pos (by simp only [List.length_cons]; omega)]
        simp
      · rw [if_neg h2, if_neg (by simp only [List.length_cons]; omega)]

theorem storeBytes_err (l : List Nat) :
    ∀ (mem : Nat → Nat) (base : Nat), base ≤ 4096 → 4096 < base + l.length →
    storeBytes mem base l = .error .indexOutOfBounds := by
  induction l with
  | nil =>
    intro mem base h1 h2
    simp only [List.length_nil] at h2
    omega
  | cons b rest ih =>
    intro mem base h1 h2
    simp only [List.length_cons] at h2
    by_cases hb : base < 4096
    · simp only [storeBytes, writeSlot, if_pos hb, exc_bind_ok]
      exact ih _ (base + 1) (by omega) (by omega)
    · simp only [storeBytes, writeSlot, if_neg hb, exc_bind_error]

theorem decode_call_ok (s : Chip8)
    (h : s.current_opcode &&& 0xF000 = 0x2000)
    (hsp : s.stack_pointer + 1 < 16) :
    decode_opcode s =
      .ok
        { s with
            stack_pointer := s.stack_pointer + 1,
            stack := fun j => if j = s.stack_pointer + 1
                              then s.program_counter else s.stack j,
            program_counter := s.current_opcode &&& 0x0FFF } := by
  have h1 : s.stack_pointer + 1 < 65536 := by omega
  simp [decode_opcode, FIRST_4_BITS_MASK, LAST_12_BITS_MASK, h, hsp, h1,
    checkedAdd, writeSlot, exc_bind_ok, exc_pure]

theorem decode_call_fault15 (s : Chip8)
    (h : s.current_opcode &&& 0xF000 = 0x2000)
    (hsp : s.stack_pointer = 15) :
    decode_opcode s = .error .indexOutOfBounds := by
  simp [decode_opcode, FIRST_4_BITS_MASK, LAST_12_BITS_MASK, h, hsp,
    checkedAdd, writeSlot, exc_bind_ok, exc_bind_error, exc_pure]

theorem decode_ret_ok (s : Chip8) (h : s.current_opcode = 0x00EE)
    (h1 : 1 ≤ s.stack_pointer) (h2 : s.stack_pointer ≤ 15) :
    decode_opcode s =
      .ok
        { s with
            program_counter := s.stack s.stack_pointer,
            stack_pointer := s.stack_pointer - 1 } := by
  have h3 : s.stack_pointer < 16 := by omega
  have hm : (0x00EE : Nat) &&& 0xF000 = 0 := by decide
  simp [decode_opcode, FIRST_4_BITS_MASK, h, hm, h3, h1, readSlot, checkedSub,
    exc_bind_ok, exc_pure]

theorem decode_ret_underflow (s : Chip8) (h : s.current_opcode = 0x00EE)
    (hsp : s.stack_pointer = 0) :
    decode_opcode s = .error .arithOverflow := by
  have hm : (0x00EE : Nat) &&& 0xF000 = 0 := by decide
  simp [decode_opcode, FIRST_4_BITS_MASK, h, hm, hsp, readSlot, checkedSub,
    exc_bind_ok, exc_bind_error, exc_pure]

theorem decode_preserves_timers (s t : Chip8) (h : decode_opcode s = .ok t) :
    t.delay_timer = s.delay_timer ∧ t.sound_timer = s.sound_timer := by
  by_cases c0 : s.current_opcode &&& FIRST_4_BITS_MASK = 0x0000
  case pos =>
    simp only [decode_opcode, c0, clear_screen, readSlot, writeSlot,
      checkedAdd, checkedSub, exc_bind_ok, exc_bind_error, exc_pure,
      reduceIte, Nat.reduceEqDiff] at h
    all_goals (repeat' first
      | split at h
      | (simp only [exc_bind_ok, exc_bind_error, exc_pure] at h))
    all_goals (first
      | exact Except.noConfusion h
      | (cases Except.ok.inj h; exact ⟨rfl, rfl⟩))
  by_cases c1 : s.current_opcode &&& FIRST_4_BITS_MASK = 0x1000
  case pos =>
    simp only [decode_opcode, c1, clear_screen, readSlot, writeSlot,
      checkedAdd, checkedSub, exc_bind_ok, exc_bind_error, exc_pure,
      reduceIte, Nat.reduceEqDiff] at h
    all_goals (repeat' first
      | split at h
      | (simp only [exc_bind_ok, exc_bind_error, exc_pure] at h))
    all_goals (first
      | exact Except.noConfusion h
      | (cases Except.ok.inj h; exact ⟨rfl, rfl⟩))
  by_cases c2 : s.current_opcode &&& FIRST_4_BITS_MASK = 0x2000
  case pos =>
    simp only [decode_opcode, c2, clear_screen, readSlot, writeSlot,
      checkedAdd, checkedSub, exc_bind_ok, exc_bind_error, exc_pure,
      reduceIte, Nat.reduceEqDiff] at h
    all_goals (repeat' first
      | split at h
      | (simp only [exc_bind_ok, exc_bind_error, exc_pure] at h))
    all_goals (first
      | exact Except.noConfusion h
      | (cases Except.ok.inj h; exact ⟨rfl, rfl⟩))
  by_cases c3 : s.current_opcode &&& FIRST_4_BITS_MASK = 0x3000
  case pos =>
    simp only [decode_opcode, c3, clear_screen, readSlot, writeSlot,
      checkedAdd, checkedSub, exc_bind_ok, exc_bind_error, exc_pure,
      reduceIte, Nat.reduceEqDiff] at h
    all_goals (repeat' first
      | split at h
      | (simp only [exc_bind_ok, exc_bind_error, exc_pure] at h))
    all_goals (first
      | exact Except.noConfusion h
      | (cases Except.ok.inj h; exact ⟨rfl, rfl⟩))
  by_cases c4 : s.current_opcode &&& FIRST_4_BITS_MASK = 0x4000
  case pos =>
    simp only [decode_opcode, c4, clear_screen, readSlot, writeSlot,
      checkedAdd, checkedSub, exc_bind_ok, exc_bind_error, exc_pure,
      reduceIte, Nat.reduceEqDiff] at h
    all_goals (repeat' first
      | split at h
      | (simp only [exc_bind_ok, exc_bind_error, exc_pure] at h))
    all_goals (first
      | exact Except.noConfusion h
      | (cases Except.ok.inj h; exact ⟨rfl, rfl⟩))
  by_cases c5 : s.current_opcode &&& FIRST_4_BITS_MASK = 0x5000
  case pos =>
    simp only [decode_opcode, c5, clear_screen, readSlot, writeSlot,
      checkedAdd, checkedSub, exc_bind_ok, exc_bind_error, exc_pure,
      reduceIte, Nat.reduceEqDiff] at h
    all_goals (repeat' first
      | split at h
      | (simp only [exc_bind_ok, exc_bind_error, exc_pure] at h))
    all_goals (first
      | exact Except.noConfusion h
      | (cases Except.ok.inj h; exact ⟨rfl, rfl⟩))
  by_cases c6 : s.current_opcode &&& FIRST_4_BITS_MASK = 0x6000
  case pos =>
    simp only [decode_opcode, c6, clear_screen, readSlot, writeSlot,
      checkedAdd, checkedSub, exc_bind_ok, exc_bind_error, exc_pure,
      reduceIte, Nat.reduceEqDiff] at h
    all_goals (repeat' first
      | split at h
      | (simp only [exc_bind_ok, exc_bind_error, exc_pure] at h))
    all_goals (first
      | exact Except.noConfusion h
      | (cases Except.ok.inj h; exact ⟨rfl, rfl⟩))
  by_cases c7 : s.current_opcode &&& FIRST_4_BITS_MASK = 0x7000
  case pos =>
    simp only [decode_opcode, c7, clear_screen, readSlot, writeSlot,
      checkedAdd, checkedSub, exc_bind_ok, exc_bind_error, exc_pure,
      reduceIte, Nat.reduceEqDiff] at h
    all_goals (repeat' first
      | split at h
      | (simp only [exc_bind_ok, exc_bind_error, exc_pure] at h))
    all_goals (first
      | exact Except.noConfusion h
      | (cases Except.ok.inj h; exact ⟨rfl, rfl⟩))
  by_cases c8 : s.current_opcode &&& FIRST_4_BITS_MASK = 0x8000
  case pos =>
    by_cases n0 : s.current_opcode &&& FOURTH_4_BITS_MASK = 0x0
    case pos =>
      simp only [decode_opcode, c8, n0, clear_screen, readSlot, writeSlot,
        checkedAdd, checkedSub, exc_bind_ok, exc_bind_error, exc_pure,
        reduceIte, Nat.reduceEqDiff] at h
      all_goals (repeat' first
        | split at h
        | (simp only [exc_bind_ok, exc_bind_error, exc_pure] at h))
      all_goals (first
        | exact Except.noConfusion h
        | (cases Except.ok.inj h; exact ⟨rfl, rfl⟩))
    by_cases n1 : s.current_opcode &&& FOURTH_4_BITS_MASK = 0x1
    case pos =>
      simp only [decode_opcode, c8, n1, clear_screen, readSlot, writeSlot,
        checkedAdd, checkedSub, exc_bind_ok, exc_bind_error, exc_pure,
        reduceIte, Nat.reduceEqDiff] at h
      all_goals (repeat' first
        | split at h
        | (simp only [exc_bind_ok, exc_bind_error, exc_pure] at h))
      all_goals (first
        | exact Except.noConfusion h
        | (cases Except.ok.inj h; exact ⟨rfl, rfl⟩))
    by_cases n2 : s.current_opcode &&& FOURTH_4_BITS_MASK = 0x2
    case pos =>
      simp only [decode_opcode, c8, n2, clear_screen, readSlot, writeSlot,
        checkedAdd, checkedSub, exc_bind_ok, exc_bind_error, exc_pure,
        reduceIte, Nat.reduceEqDiff] at h
      all_goals (repeat' first
        | split at h
        | (simp only [exc_bind_ok, exc_bind_error, exc_pure] at h))
      all_goals (first
        | exact Except.noConfusion h
        | (cases Except.ok.inj h; exact ⟨rfl, rfl⟩))
    by_cases n3 : s.current_opcode &&& FOURTH_4_BITS_MASK = 0x3
    case pos =>
      simp only [decode_opcode, c8, n3, clear_screen, readSlot, writeSlot,
        checkedAdd, checkedSub, exc_bind_ok, exc_bind_error, exc_pure,
        reduceIte, Nat.reduceEqDiff] at h
      all_goals (repeat' first
        | split at h
        | (simp only [exc_bind_ok, exc_bind_error, exc_pure] at h))
      all_goals (first
        | exact Except.noConfusion h
        | (cases Except.ok.inj h; exact ⟨rfl, rfl⟩))
    by_cases n4 : s.current_opcode &&& FOURTH_4_BITS_MASK = 0x4
    case pos =>
      simp only [decode_opcode, c8, n4, clear_screen, readSlot, writeSlot,
        checkedAdd, checkedSub, exc_bind_ok, exc_bind_error, exc_pure,
        reduceIte, Nat.reduceEqDiff] at h
      all_goals (repeat' first
        | split at h
        | (simp only [exc_bind_ok, exc_bind_error, exc_pure] at h))
      all_goals (first
        | exact Except.noConfusion h
        | (cases Except.ok.inj h; exact ⟨rfl, rfl⟩))
    by_cases n5 : s.current_opcode &&& FOURTH_4_BITS_MASK = 0x5
    case pos =>
      simp only [decode_opcode, c8, n5, clear_screen, readSlot, writeSlot,
        checkedAdd, checkedSub, exc_bind_ok, exc_bind_error, exc_pure,
        reduceIte, Nat.reduceEqDiff] at h
      all_goals (repeat' first
        | split at h
        | (simp only [exc_bind_ok, exc_bind_error, exc_pure] at h))
      all_goals (first
        | exact Except.noConfusion h
        | (cases Except.ok.inj h; exact ⟨rfl, rfl⟩))
    by_cases n6 : s.current_opcode &&& FOURTH_4_BITS_MASK = 0x6
    case pos =>
      simp only [decode_opcode, c8, n6, clear_screen, readSlot, writeSlot,
        checkedAdd, checkedSub, exc_bind_ok, exc_bind_error, exc_pure,
        reduceIte, Nat.reduceEqDiff] at h
      all_goals (repeat' first
        | split at h
        | (simp only [exc_bind_ok, exc_bind_error, exc_pure] at h))
      all_goals (first
        | exact Except.noConfusion h
        | (cases Except.ok.inj h; exact ⟨rfl, rfl⟩))
    by_cases n7 : s.current_opcode &&& FOURTH_4_BITS_MASK = 0x7
    case pos =>
      simp only [decode_opcode, c8, n7, clear_screen, readSlot, writeSlot,
        checkedAdd, checkedSub, exc_bind_ok, exc_bind_error, exc_pure,
        reduceIte, Nat.reduceEqDiff] at h
      all_goals (repeat' first
        | split at h
        | (simp only [exc_bind_ok, exc_bind_error, exc_pure] at h))
      all_goals (first
        | exact Except.noConfusion h
        | (cases Except.ok.inj h; exact ⟨rfl, rfl⟩))
    by_cases n8 : s.current_opcode &&& FOURTH_4_BITS_MASK = 0xE
    case pos =>
      simp only [decode_opcode, c8, n8, clear_screen, readSlot, writeSlot,
        checkedAdd, checkedSub, exc_bind_ok, exc_bind_error, exc_pure,
        reduceIte, Nat.reduceEqDiff] at h
      all_goals (repeat' first
        | split at h
        | (simp only [exc_bind_ok, exc_bind_error, exc_pure] at h))
      all_goals (first
        | exact Except.noConfusion h
        | (cases Except.ok.inj h; exact ⟨rfl, rfl⟩))
    simp only [decode_opcode, c8, n0, n1, n2, n3, n4, n5, n6, n7, n8, clear_screen, readSlot,
      writeSlot, checkedAdd, checkedSub, exc_bind_ok, exc_bind_error,
      exc_pure, reduceIte, Nat.reduceEqDiff] at h
    exact Except.noConfusion h
  by_cases c9 : s.current_opcode &&& FIRST_4_BITS_MASK = 0x9000
  case pos =>
    simp only [decode_opcode, c9, clear_screen, readSlot, writeSlot,
      checkedAdd, checkedSub, exc_bind_ok, exc_bind_error, exc_pure,
      reduceIte, Nat.reduceEqDiff] at h
    all_goals (repeat' first
      | split at h
      | (simp only [exc_bind_ok, exc_bind_error, exc_pure] at h))
    all_goals (first
      | exact Except.noConfusion h
      | (cases Except.ok.inj h; exact ⟨rfl, rfl⟩))
  by_cases c10 : s.current_opcode &&& FIRST_4_BITS_MASK = 0xA000
  case pos =>
    simp only [decode_opcode, c10, clear_screen, readSlot, writeSlot,
      checkedAdd, checkedSub, exc_bind_ok, exc_bind_error, exc_pure,
      reduceIte, Nat.reduceEqDiff] at h
    all_goals (repeat' first
      | split at h
      | (simp only [exc_bind_ok, exc_bind_error, exc_pure] at h))
    all_goals (first
      | exact Except.noConfusion h
      | (cases Except.ok.inj h; exact ⟨rfl, rfl⟩))
  by_cases c11 : s.current_opcode &&& FIRST_4_BITS_MASK = 0xB000
  case pos =>
    simp only [decode_opcode, c11, clear_screen, readSlot, writeSlot,
      checkedAdd, checkedSub, exc_bind_ok, exc_bind_error, exc_pure,
      reduceIte, Nat.reduceEqDiff] at h
    all_goals (repeat' first
      | split at h
      | (simp only [exc_bind_ok, exc_bind_error, exc_pure] at h))
    all_goals (first
      | exact Except.noConfusion h
      | (cases Except.ok.inj h; exact ⟨rfl, rfl⟩))
  simp only [decode_opcode, c0, c1, c2, c3, c4, c5, c6, c7, c8, c9, c10, c11, clear_screen, readSlot, writeSlot,
    checkedAdd, checkedSub, exc_bind_ok, exc_bind_error, exc_pure,
    reduceIte, Nat.reduceEqDiff] at h
  cases Except.ok.inj h
  exact ⟨rfl, rfl⟩

/-- Claim C7: executing opcode 8XY4 writes (Vx+Vy) mod 256 into Vx and then
writes the carry (1 when the true sum of the original Vx and Vy exceeds 255,
else 0) into VF — so when X = 0xF the flag overwrites the sum, the flag write
being last — and changes no other register or state field. -/
theorem c7_add_carry (s : Chip8) (x y : Nat)
    (h1 : s.current_opcode &&& 0xF000 = 0x8000)
    (h4 : s.current_opcode &&& 0x000F = 0x4)
    (hx : (s.current_opcode &&& 0x0F00) >>> 8 = x)
    (hy : (s.current_opcode &&& 0x00F0) >>> 4 = y) :
    decode_opcode s =
      .ok
        { s with v := fun j =>
            if j = 0xF then (if 256 ≤ s.v x + s.v y then 1 else 0)
            else if j = x then (s.v x + s.v y) % 256
            else s.v j } := by
  have hx16 : x < 16 := hx ▸ nibble_x_lt s.current_opcode
  have hy16 : y < 16 := hy ▸ nibble_y_lt s.current_opcode
  simp [decode_opcode, FIRST_4_BITS_MASK, SECOND_4_BITS_MASK,
    THIRD_4_BITS_MASK, FOURTH_4_BITS_MASK, LAST_8_BITS_MASK, LAST_12_BITS_MASK,
    F, h1, h4, hx, hy, readSlot, writeSlot, hx16, hy16,
    exc_bind_ok, exc_pure]

/-- Witness for C7: with V0=0xFF, V1=0x01, opcode 0x8014 yields V0=0x00 and
VF=1; with V0=0x01, V1=0x01 it yields V0=0x02 and VF=0. -/
theorem c7_add_carry_witness :
    ((decode_opcode c7StateA).map (fun t => (t.v 0, t.v 15)) = .ok (0x00, 1)) ∧
    ((decode_opcode c7StateB).map (fun t => (t.v 0, t.v 15)) = .ok (0x02, 0)) := by
  constructor
  · rw [c7_add_carry c7StateA 0 1 (by decide) (by decide) (by decide)
      (by decide)]
    decide
  · rw [c7_add_carry c7StateB 0 1 (by decide) (by decide) (by decide)
      (by decide)]
    decide

/-- Claim C1 (evaluation at the failing inputs): the source's 8XY5 and 8XY7
arms only set VF and never write the difference into Vx.  With V0=5, V1=3,
opcode 0x8015 leaves V0 = 5 and VF = 1 (the claim requires V0 = 2); with
V0=3, V1=5 it leaves V0 = 3 and VF = 0 (the claim requires V0 = 0xFE); with
V0=3, V1=5, opcode 0x8017 leaves V0 = 3 and VF = 1 (the claim requires
V0 = 2). -/
theorem c1_sub_subn_no_subtraction :
    ((decode_opcode c1StateA).map (fun t => (t.v 0, t.v 15)) = .ok (5, 1)) ∧
    ((decode_opcode c1StateB).map (fun t => (t.v 0, t.v 15)) = .ok (3, 0)) ∧
    ((decode_opcode c1StateC).map (fun t => (t.v 0, t.v 15)) = .ok (3, 1)) := by
  decide

/-- Claim C2 (evaluation at the failing input): the cycle never advances the
program counter for the fetch: fetching and executing opcode 0x600A
(LD V0,0x0A) at pc = 0x200 loads V0 but leaves pc = 0x200, where the claim
requires pc = 0x202; and a taken skip (0x3000, SE V0,0x00 with V0 = 0) leaves
pc = 0x202, where the claim requires pc = 0x204. -/
theorem c2_step_does_not_advance_pc :
    ((fetch_opcode c2State >>= decode_opcode).map
      (fun t => (t.program_counter, t.v 0)) = .ok (0x200, 0x0A)) ∧
    ((fetch_opcode c2StateB >>= decode_opcode).map
      (fun t => t.program_counter) = .ok 0x202) := by
  constructor
  · decide
  · decide

/-- Claim C8 (evaluation at the failing input): opcode 0x00E0 does not clear
the display buffer: `clear_screen` is `todo!()` in the source, so executing
0x00E0 faults with the unimplemented-code panic instead of zeroing `gfx`. -/
theorem c8_cls_unimplemented :
    decode_opcode { zeroChip8 with current_opcode := 0x00E0 } =
      .error .notYetImplemented := rfl

/-- Claim C3 (amended): `initialize` sets the program counter to 0x200
unconditionally (it takes no variant selector), zeroes the current opcode,
the index register and the stack pointer, and writes the 80-byte font table
into memory[0..80); it leaves V0..VF, both timers, the display buffer, the
stack contents and the rest of memory unchanged. -/
theorem c3_initialize_behavior (s : Chip8) :
    initializeChip8 s =
      .ok
        { s with
            current_opcode := 0,
            index_register := 0,
            program_counter := 0x200,
            stack_pointer := 0,
            memory := fun j =>
              if j < 80 then CHIP8_FONT_SET.getD j 0 else s.memory j } := by
  have hsb := storeBytes_ok CHIP8_FONT_SET s.memory 0 (by decide)
  have hlen : CHIP8_FONT_SET.length = 80 := rfl
  simp only [initializeChip8, hsb, exc_bind_ok, exc_pure]
  refine congrArg Except.ok ?_
  congr 1
  funext j
  by_cases hj : j < 80
  · rw [if_pos (by rw [hlen]; omega), if_pos hj, Nat.sub_zero]
  · rw [if_neg (by rw [hlen]; omega), if_neg hj]

/-- Counterexample to C3 as stated: `initialize` zeroes neither the V
registers nor the timers — starting from a state with V0 = 1 and delay
timer 7, both survive initialization, so reading them immediately after
does not yield zero as the claim requires (nor is any variant selectable:
the program counter is always set to 0x200). -/
theorem c3_initialize_not_all_zeroed :
    ¬ ((initializeChip8 c3State).map (fun t => (t.v 0, t.delay_timer)) =
        .ok (0, 0)) := by
  decide

/-- Claim C4 (amended): loading is an unchecked byte-copy loop: it succeeds
exactly when the variant's offset plus the image length is at most 4096,
writing the image at the offset and touching nothing else; when the image is
too large the first out-of-bounds write faults with the runtime bounds-check
panic (so loading aborts before any execution, never silently truncates and
never writes past 0xFFF), rather than returning a load-error value to the
caller. -/
theorem c4_load_program_behavior (program : List Nat) (s : Chip8) :
    (CHIP8_PROGRAM_OFFSET + program.length ≤ 4096 →
      load_program s program .CHIP8 =
        .ok
          { s with
              memory := fun j =>
                if CHIP8_PROGRAM_OFFSET ≤ j ∧
                   j < CHIP8_PROGRAM_OFFSET + program.length
                then program.getD (j - CHIP8_PROGRAM_OFFSET) 0
                else s.memory j }) ∧
    (4096 < CHIP8_PROGRAM_OFFSET + program.length →
      load_program s program .CHIP8 = .error .indexOutOfBounds) ∧
    (ETI660_PROGRAM_OFFSET + program.length ≤ 4096 →
      load_program s program .ETI660 =
        .ok
          { s with
              memory := fun j =>
                if ETI660_PROGRAM_OFFSET ≤ j ∧
                   j < ETI660_PROGRAM_OFFSET + program.length
                then program.getD (j - ETI660_PROGRAM_OFFSET) 0
                else s.memory j }) ∧
    (4096 < ETI660_PROGRAM_OFFSET + program.length →
      load_program s program .ETI660 = .error .indexOutOfBounds) := by
  refine ⟨fun h => ?_, fun h => ?_, fun h => ?_, fun h => ?_⟩
  · simp only [load_program, load_chip8_program,
      storeBytes_ok program s.memory CHIP8_PROGRAM_OFFSET h, exc_bind_ok,
      exc_pure]
  · simp only [load_program, load_chip8_program,
      storeBytes_err program s.memory CHIP8_PROGRAM_OFFSET (by decide) h,
      exc_bind_error]
  · simp only [load_program, load_eti660_program,
      storeBytes_ok program s.memory ETI660_PROGRAM_OFFSET h, exc_bind_ok,
      exc_pure]
  · simp only [load_program, load_eti660_program,
      storeBytes_err program s.memory ETI660_PROGRAM_OFFSET (by decide) h,
      exc_bind_error]

/-- Witness for C4: a 1-byte image loads at 0x200 (resp. 0x600); a 3585-byte
image overflows the standard offset and a 2561-byte image the ETI-660
offset, and both loads fault. -/
theorem c4_load_program_behavior_witness :
    ((load_program zeroChip8 [0xAB] .CHIP8).map
        (fun t => (t.memory 0x200, t.memory 0x201)) = .ok (0xAB, 0)) ∧
    (load_program zeroChip8 (List.replicate 3585 0) .CHIP8 =
      .error .indexOutOfBounds) ∧
    ((load_program zeroChip8 [0xCD] .ETI660).map
        (fun t => t.memory 0x600) = .ok 0xCD) ∧
    (load_program zeroChip8 (List.replicate 2561 0) .ETI660 =
      .error .indexOutOfBounds) := by
  refine ⟨?_, ?_, ?_, ?_⟩
  · rw [(c4_load_program_behavior [0xAB] zeroChip8).1 (by decide)]
    decide
  · exact (c4_load_program_behavior (List.replicate 3585 0) zeroChip8).2.1
      (by norm_num [CHIP8_PROGRAM_OFFSET, List.length_replicate])
  · rw [(c4_load_program_behavior [0xCD] zeroChip8).2.2.1 (by decide)]
    decide
  · exact (c4_load_program_behavior (List.replicate 2561 0) zeroChip8).2.2.2
      (by norm_num [ETI660_PROGRAM_OFFSET, List.length_replicate])

/-- Counterexample to C4 as stated: the claim asserts that an oversized image
is rejected with a load error reported to the caller rather than a crash,
but loading a 4000-byte image at the standard offset dies on the runtime
bounds-check panic raised by the first write past address 0xFFF (an
unhandled panic that terminates the run; the loader has no error-reporting
path at all). -/
theorem c4_load_oversize_bounds_fault :
    load_program zeroChip8 (List.replicate 4000 0) .CHIP8 =
      .error .indexOutOfBounds := by
  simp only [load_program, load_chip8_program,
    storeBytes_err (List.replicate 4000 0) zeroChip8.memory
      CHIP8_PROGRAM_OFFSET (by decide)
      (by norm_num [CHIP8_PROGRAM_OFFSET, List.length_replicate]),
    exc_bind_error]

/-- Claim C5 (amended): a CALL with the stack pointer already at the last
slot (15) increments it to 16 and uses 16 to index the 16-slot stack —
violating the claimed in-[0,16) indexing invariant — which faults with the
bounds-check panic; a RET with no active calls (stack pointer 0) loads
stack[0] into pc and then faults with the underflow panic on the stack
pointer decrement.  Both faults abort the run (the model yields no state, so
nothing observable is wrapped or corrupted), but they are panics, not error
results surfaced to a driver.  In the non-faulting ranges CALL
increments-then-stores and RET loads-then-decrements. -/
theorem c5_stack_fault_behavior :
    (∀ s : Chip8, s.current_opcode &&& 0xF000 = 0x2000 →
      s.stack_pointer = 15 → decode_opcode s = .error .indexOutOfBounds) ∧
    (∀ s : Chip8, s.current_opcode = 0x00EE → s.stack_pointer = 0 →
      decode_opcode s = .error .arithOverflow) ∧
    (∀ s : Chip8, s.current_opcode &&& 0xF000 = 0x2000 →
      s.stack_pointer + 1 < 16 →
      decode_opcode s =
        .ok
          { s with
              stack_pointer := s.stack_pointer + 1,
              stack := fun j => if j = s.stack_pointer + 1
                                then s.program_counter else s.stack j,
              program_counter := s.current_opcode &&& 0x0FFF }) ∧
    (∀ s : Chip8, s.current_opcode = 0x00EE → 1 ≤ s.stack_pointer →
      s.stack_pointer ≤ 15 →
      decode_opcode s =
        .ok
          { s with
              program_counter := s.stack s.stack_pointer,
              stack_pointer := s.stack_pointer - 1 }) :=
  ⟨fun s h hsp => decode_call_fault15 s h hsp,
   fun s h hsp => decode_ret_underflow s h hsp,
   fun s h hsp => decode_call_ok s h hsp,
   fun s h h1 h2 => decode_ret_ok s h h1 h2⟩

/-- Witness for C5: CALL 0x2123 at sp = 15 faults out of bounds; RET at
sp = 0 faults with the underflow panic; CALL 0x2123 at sp = 3 pushes pc and
jumps; RET at sp = 4 pops the stored address. -/
theorem c5_stack_fault_behavior_witness :
    (decode_opcode c5WitCall15 = .error .indexOutOfBounds) ∧
    (decode_opcode c5WitRet0 = .error .arithOverflow) ∧
    ((decode_opcode c5WitCall).map
        (fun t => (t.program_counter, t.stack_pointer, t.stack 4)) =
      .ok (0x123, 4, 0x456)) ∧
    ((decode_opcode c5WitRet).map
        (fun t => (t.program_counter, t.stack_pointer)) = .ok (0x654, 3)) := by
  refine ⟨c5_stack_fault_behavior.1 c5WitCall15 (by decide) (by decide),
          c5_stack_fault_behavior.2.1 c5WitRet0 (by decide) (by decide),
          ?_, ?_⟩
  · rw [c5_stack_fault_behavior.2.2.1 c5WitCall (by decide) (by decide)]
    decide
  · rw [c5_stack_fault_behavior.2.2.2 c5WitRet (by decide) (by decide)
      (by decide)]
    decide

/-- Counterexample to C5 as stated: executing CALL with the stack pointer at
the last slot (15) uses stack index 16 — outside [0,16) — so the claimed
indexing invariant is false, and the outcome is the bounds-check panic, not
a distinguishable non-crash error result. -/
theorem c5_call_indexes_slot_16 :
    decode_opcode c5CallState = .error .indexOutOfBounds := rfl

/-- Claim C6 (amended): for any nesting depth up to and including 15 — the
stack pointer before the CALL being at most 14 — a CALL (2NNN) followed by
the matching RET (00EE) restores both the program counter and the stack
pointer to their pre-CALL values.  (At depth 16 the CALL itself faults on
stack slot 16, so the claimed bound of 16 is off by one.) -/
theorem c6_call_ret_roundtrip (s : Chip8)
    (h : s.current_opcode &&& 0xF000 = 0x2000)
    (hsp : s.stack_pointer ≤ 14) :
    ((decode_opcode s >>= fun t =>
        decode_opcode { t with current_opcode := 0x00EE }).map
      (fun u => (u.program_counter, u.stack_pointer))) =
      .ok (s.program_counter, s.stack_pointer) := by
  have hm : (0x00EE : Nat) &&& 0xF000 = 0 := by decide
  have hlt : s.stack_pointer + 1 < 16 := by omega
  have hge : 1 ≤ s.stack_pointer + 1 := by omega
  have hlt2 : s.stack_pointer + 1 < 65536 := by omega
  simp [decode_opcode, FIRST_4_BITS_MASK, LAST_12_BITS_MASK, h, hm, hlt, hge,
    hlt2, checkedAdd, checkedSub, readSlot, writeSlot, exc_bind_ok,
    exc_pure, Except.map]

/-- Witness for C6 at depth 1: from sp = 0 and pc = 0x345, CALL 0xABC then
RET returns to pc = 0x345 with sp = 0. -/
theorem c6_call_ret_roundtrip_witness :
    ((decode_opcode c6WitState >>= fun t =>
        decode_opcode { t with current_opcode := 0x00EE }).map
      (fun u => (u.program_counter, u.stack_pointer))) = .ok (0x345, 0) :=
  c6_call_ret_roundtrip c6WitState (by decide) (by decide)

/-- Counterexample to C6 as stated: at nesting depth 16 (stack pointer
already 15) CALL-then-RET does not restore the program counter and stack
pointer — the CALL itself faults on the out-of-bounds stack slot 16, so the
round trip produces no state at all. -/
theorem c6_depth16_call_faults :
    ((decode_opcode c6FaultState >>= fun t =>
        decode_opcode { t with current_opcode := 0x00EE }).map
      (fun u => (u.program_counter, u.stack_pointer))) ≠
      .ok (c6FaultState.program_counter, c6FaultState.stack_pointer) := by
  decide

/-- Claim C9: a timer tick decrements each of the two timers by exactly 1
when it is nonzero and leaves it at 0 when it is zero, the two independently
(and nothing else changes); ticking a delay timer of 5 five times yields 0
and a sixth tick leaves it at 0 with no wraparound; and instruction
execution never changes either timer. -/
theorem c9_timers :
    (∀ s : Chip8, update_timers s =
      { s with
          delay_timer := if 0 < s.delay_timer then s.delay_timer - 1
                         else s.delay_timer,
          sound_timer := if 0 < s.sound_timer then s.sound_timer - 1
                         else s.sound_timer }) ∧
    ((update_timers^[5] { zeroChip8 with delay_timer := 5 }).delay_timer
        = 0) ∧
    ((update_timers^[6] { zeroChip8 with delay_timer := 5 }).delay_timer
        = 0) ∧
    (∀ s : Chip8,
      (decode_opcode s).map (fun t => (t.delay_timer, t.sound_timer)) =
      (decode_opcode s).map (fun _ => (s.delay_timer, s.sound_timer))) := by
  refine ⟨fun s => ?_, by decide, by decide, fun s => ?_⟩
  · by_cases hd : 0 < s.delay_timer <;> by_cases hs : 0 < s.sound_timer <;>
      simp [update_timers, hd, hs]
  · cases hdec : decode_opcode s with
    | error e => rfl
    | ok t =>
      have hp := decode_preserves_timers s t hdec
      simp [Except.map, hp.1, hp.2]

/-- Claim C10: the fetch is total exactly under pc + 1 < 4096 (that is,
pc ≤ 0xFFE): it reads memory[pc] and memory[pc+1] with no bounds check of
its own and no wraparound, so outside that range it faults (in particular at
pc = 0xFFF the second read indexes 4096); and the jump family overwrites pc
with an arbitrary 12-bit address with no validation. -/
theorem c10_fetch_bounds :
    (∀ s : Chip8, fetch_opcode s =
      if s.program_counter + 1 < 4096
      then .ok { s with current_opcode :=
                   s.memory s.program_counter * 256 +
                   s.memory (s.program_counter + 1) }
      else .error .indexOutOfBounds) ∧
    (∀ s : Chip8, s.current_opcode &&& 0xF000 = 0x1000 →
      decode_opcode s =
        .ok { s with program_counter := s.current_opcode &&& 0x0FFF }) := by
  constructor
  · intro s
    by_cases h1 : s.program_counter + 1 < 4096
    · have h0 : s.program_counter < 4096 := by omega
      simp [fetch_opcode, readSlot, h0, h1, exc_bind_ok, exc_pure]
    · by_cases h0 : s.program_counter < 4096
      · simp [fetch_opcode, readSlot, h0, h1, exc_bind_ok, exc_bind_error]
      · simp [fetch_opcode, readSlot, h0, h1, exc_bind_error]
  · intro s h
    simp [decode_opcode, FIRST_4_BITS_MASK, LAST_12_BITS_MASK, h, exc_pure]

/-- Witness for C10: the jump 0x1FFF sets pc = 0xFFF with no validation, and
fetching at pc = 0xFFF then faults out of bounds (it reads memory[0x1000]). -/
theorem c10_fetch_bounds_witness :
    (decode_opcode { zeroChip8 with current_opcode := 0x1FFF } =
      .ok { zeroChip8 with
              current_opcode := 0x1FFF, program_counter := 0xFFF }) ∧
    (fetch_opcode { zeroChip8 with program_counter := 0xFFF } =
      .error .indexOutOfBounds) := by
  constructor
  · rw [c10_fetch_bounds.2 { zeroChip8 with current_opcode := 0x1FFF }
      (by decide)]
    rfl
  · rw [c10_fetch_bounds.1 { zeroChip8 with program_counter := 0xFFF }]
    rfl
